import Mathlib

/-!
Verification of the Panny chat backend (`main.py`): a shallow embedding of
the reply generator, the document serializer, and the conversation/message
request handlers, together with proofs of the specified properties.

Conventions of the embedding:
* Python strings are Lean `String`s; character-level operations work on
  `String.data` (a `List Char`).
* Timestamps (`datetime` values) are modelled as `Nat` clock readings; each
  call to `datetime.utcnow()` in a handler becomes an explicit argument.
* The Mongo store is a `DBState` (two collections as Lean lists); a raised
  exception is an `Except.error`.  An error raised by the code models the
  failed HTTP request; the claims settled here never inspect store contents
  after a failed request.
-/

/-! ## String helpers (Python `str.strip`, `str.lower`, `in`) -/

/-- Python whitespace characters recognised by `str.strip()` (ASCII range;
the inputs of this program are ASCII text). -/
def pyIsSpace (c : Char) : Bool :=
  c == ' ' || c == '\t' || c == '\n' || c == '\r' ||
  c == Char.ofNat 11 || c == Char.ofNat 12

/-- Python `str.strip()`: drop leading and trailing whitespace. -/
def pyStrip (s : List Char) : List Char :=
  ((s.dropWhile pyIsSpace).reverse.dropWhile pyIsSpace).reverse

/-- Python `str.lower()` (ASCII range, matching `Char.toLower`). -/
def pyLower (s : List Char) : List Char :=
  s.map Char.toLower

/-- Python `needle in hay` on strings: substring containment. -/
def isInfixIn (needle : List Char) : List Char → Bool
  | [] => needle.isEmpty
  | c :: rest => needle.isPrefixOf (c :: rest) || isInfixIn needle rest

/-- The `any(word in lowered for word in ws)` tests from the source. -/
def containsAny (lowered : List Char) (ws : List String) : Bool :=
  ws.any (fun w => isInfixIn w.data lowered)

/-! ## Reply generator (`main.py` lines 156-178) -/

def EMPATHY_SEED : List String :=
  ["I\x27m here with you.",
   "That sounds really tough, thank you for sharing it.",
   "It\x27s okay to feel this way.",
   "Let\x27s take it one small step at a time."]

def fallbackReply : String := "I\x27m here whenever you\x27re ready."

def anxietyWords : List String := ["anxious", "anxiety", "worried", "panic"]

def anxietyReply : String :=
  "I hear the anxiety showing up. Try a slow breath with me: in for 4, hold for 4, out for 6. What tends to help even a little when this feeling visits?"

def sadnessWords : List String := ["sad", "down", "tired"]

def sadnessReply : String :=
  "Feeling low can be heavy. What would be the gentlest next right thing for you—water, a stretch, texting a friend?"

def angerWords : List String := ["angry", "frustrated", "mad"]

def angerReply : String :=
  "Anger is a signal. Want to unpack what boundary or need might be underneath it?"

def sleepWords : List String := ["can\x27t sleep", "insomnia", "sleep"]

def sleepReply : String :=
  "Rest can be hard when the mind is busy. Would a quick grounding—naming 5 things you can see, 4 you can touch—be okay to try?"

def genericReply : String :=
  EMPATHY_SEED.getD 0 "" ++ " Tell me more about what\x27s on your mind."

/-- Function `generate_reply` from `main.py` lines 165-178, translated clause by
clause (strip, emptiness check, lower-case, four keyword tests in source
order, generic fallback built from `EMPATHY_SEED[0]`). -/
def generate_reply (user_text : String) : String :=
  let text := pyStrip user_text.data
  if text.isEmpty then fallbackReply
  else
    let lowered := pyLower text
    if containsAny lowered anxietyWords then anxietyReply
    else if containsAny lowered sadnessWords then sadnessReply
    else if containsAny lowered angerWords then angerReply
    else if containsAny lowered sleepWords then sleepReply
    else genericReply

example : generate_reply "" = fallbackReply := by decide
example : generate_reply "   " = fallbackReply := by decide
example : generate_reply "I feel sad and anxious" = anxietyReply := by decide
example : generate_reply "so TIRED today" = sadnessReply := by decide
example : generate_reply "hello" = genericReply := by decide

/-! ## Serialization layer (`main.py` lines 40-58)

A raw stored document is a finite map from field names to store values,
modelled as an association list in insertion order (Python dicts preserve
insertion order and have unique keys). -/

/-- Values a stored document field can hold: a BSON `ObjectId` (carrying
its 24-hex-character string form), a `datetime` (a clock reading), plus
the plain JSON-like values this program stores. -/
inductive Value where
  | objectId (oid : String)
  | datetime (t : Nat)
  | str (s : String)
  | int (n : Int)
  | null
deriving DecidableEq, Repr

/-- Rendering `datetime.isoformat()` of the external datetime library, modelled as an
injective rendering of the clock reading; the claims settled here depend
only on which fields become strings, never on the exact text. -/
def isoformat (t : Nat) : String := "1970-01-01T00:00:" ++ toString t

/-- Python `str(value)` on store values (`str(ObjectId)` is its 24-hex
form; the other renderings are stand-ins, no claim depends on their text). -/
def pyStr : Value → String
  | .objectId oid => oid
  | .datetime t => "1970-01-01 00:00:" ++ toString t
  | .str s => s
  | .int n => toString n
  | .null => "None"

/-- Function `to_str_id` from `main.py` lines 42-46: `str(value)`.  The
`except` branch is unreachable (`str` cannot fail on store values), so the
model is total. -/
def to_str_id (value : Value) : String := pyStr value

/-- A stored document: fields in insertion order. -/
abbrev Doc := List (String × Value)

/-- Python `out[k]` membership / `doc.get(k)`: first binding of `k`. -/
def lookupKey (d : Doc) (k : String) : Option Value :=
  (d.find? (fun p => p.1 == k)).map (fun p => p.2)

/-- Python `out.pop(k)`'s effect on the dict: remove the binding of `k`. -/
def removeKey (d : Doc) (k : String) : Doc :=
  d.filter (fun p => p.1 != k)

/-- Python `out[k] = v`: overwrite the binding of `k` in place if it
exists (dict keys are unique, so the first binding is the binding), else
append `k` at the end. -/
def setKey (d : Doc) (k : String) (v : Value) : Doc :=
  match d with
  | [] => [(k, v)]
  | p :: rest => if p.1 == k then (k, v) :: rest else p :: setKey rest k v

/-- The per-value conversion of the loop in `main.py` lines 53-57: an
`ObjectId` becomes `str(v)`, a `datetime` becomes `v.isoformat()`, anything
else is left alone.  (The two `if`s in the source are exclusive: a value is
never both, and once rewritten to a `str` the second test fails.) -/
def convertValue : Value → Value
  | .objectId oid => .str oid
  | .datetime t => .str (isoformat t)
  | v => v

/-- Function `serialize_doc` from `main.py` lines 49-58: copy the document, rename
`_id` to `id` rendered via `to_str_id`, then convert every `ObjectId` or
`datetime` value to its string form. -/
def serialize_doc (doc : Doc) : Doc :=
  let out :=
    match lookupKey doc "_id" with
    | some v => setKey (removeKey doc "_id") "id" (.str (to_str_id v))
    | none => doc
  out.map (fun p => (p.1, convertValue p.2))

example :
    serialize_doc [("_id", Value.objectId "abc"), ("content", Value.str "hi"),
      ("created_at", Value.datetime 7)] =
    [("content", Value.str "hi"), ("created_at", Value.str (isoformat 7)),
      ("id", Value.str "abc")] := by decide

/-! ## Store model (the two Mongo collections) -/

/-- A stored document of the `conversation` collection.  Modelled from the
spec: the `Conversation` shape lives in the missing `schemas.py`; the spec's
data model gives it `id` (store-generated), optional `title` and `user_id`,
and `created_at`/`updated_at` timestamps.  `main.py` line 191 creates it
with `title=None, user_id=None`. -/
structure ConversationDoc where
  oid : String
  title : Option String
  user_id : Option String
  created_at : Nat
  updated_at : Nat
deriving DecidableEq, Repr

/-- A stored document of the `message` collection: exactly the dict shape
inserted in `main.py` lines 198-204 and 210-216, plus the `_id` the store
generates on `insert_one` (kept as `oid`, supplied as a parameter). -/
structure MessageDoc where
  oid : String
  conversation_id : String
  role : String
  content : String
  created_at : Nat
  updated_at : Nat
deriving DecidableEq, Repr

/-- The document store: the `conversation` and `message` collections, each
in insertion order. -/
structure DBState where
  conversations : List ConversationDoc
  messages : List MessageDoc
deriving DecidableEq, Repr

/-- Request shape `ChatRequest`.  Modelled from the spec: `schemas.py` is missing; the
endpoint contract is `{conversation_id?: string, message: string}`. -/
structure ChatRequest where
  conversation_id : Option String
  message : String
deriving DecidableEq, Repr

/-- Shape `ConversationOut` from `main.py` lines 24-29 (timestamps already
serialized to strings). -/
structure ConversationOut where
  id : String
  title : Option String
  user_id : Option String
  created_at : Option String
  updated_at : Option String
deriving DecidableEq, Repr

/-- Shape `MessageOut` from `main.py` lines 32-37. -/
structure MessageOut where
  id : String
  conversation_id : String
  role : String
  content : String
  created_at : Option String
deriving DecidableEq, Repr

/-- The `Message` pydantic shape returned inside `ChatResponse`
(`main.py` lines 227-239).  Modelled from the spec's data model for the
missing `schemas.py`. -/
structure MessageModel where
  conversation_id : String
  role : String
  content : String
  created_at : Option Nat
deriving DecidableEq, Repr

/-- Response shape `ChatResponse`: `{conversation_id, reply, messages}` per the spec's
endpoint contract (shape from the missing `schemas.py`). -/
structure ChatResponse where
  conversation_id : String
  reply : String
  messages : List MessageModel
deriving DecidableEq, Repr

/-- How a handler invocation fails: an `HTTPException(code, detail)`, or an
exception that no handler catches (here only `bson`'s `InvalidId`, raised
by `ObjectId(...)` on a malformed identifier string). -/
inductive ChatError where
  | http (code : Nat) (detail : String)
  | invalidId (s : String)
deriving DecidableEq, Repr

/-- A hexadecimal digit (either case). -/
def isHexChar (c : Char) : Bool :=
  (decide (48 ≤ c.toNat) && decide (c.toNat ≤ 57)) ||
  (decide (97 ≤ c.toNat) && decide (c.toNat ≤ 102)) ||
  (decide (65 ≤ c.toNat) && decide (c.toNat ≤ 70))

/-- The string forms accepted by `bson.objectid.ObjectId(...)` (external
library): a 24-character hexadecimal string; anything else raises
`InvalidId`. -/
def validObjectId (s : String) : Bool :=
  s.length == 24 && s.data.all isHexChar

/-- Python truthiness of the optional `conversation_id`
(`if not conversation_id` on `main.py` line 190: `None` and `""` are
falsy). -/
def strTruthy : Option String → Bool
  | none => false
  | some s => !s.isEmpty

/-- Step `db["conversation"].update_one({"_id": ObjectId(cid)}, {"$set":
{"updated_at": t}})`: set `updated_at` on the first matching document;
a filter matching nothing is a no-op (Mongo `update_one`). -/
def touchConversation (convs : List ConversationDoc) (cid : String) (t : Nat) :
    List ConversationDoc :=
  match convs with
  | [] => []
  | c :: rest =>
    if c.oid == cid then { c with updated_at := t } :: rest
    else c :: touchConversation rest cid t

/-- The ids the store generates during one `chat` call: the new
conversation's `_id` (returned by `create_document`) and the `_id`s Mongo
assigns to the two inserted messages. -/
structure StoreNonce where
  convId : String
  userMsgId : String
  botMsgId : String
deriving DecidableEq, Repr

/-! ## Request handlers (`main.py` lines 121-239) -/

/-- Insert into a sorted list, placing the new element before the first
strictly-greater one (ties keep the earlier element first). -/
def insertLe (le : α → α → Bool) (a : α) : List α → List α
  | [] => [a]
  | b :: bs => if le a b then a :: b :: bs else b :: insertLe le a bs

/-- Stable insertion sort: the model of Mongo's `sort` on a single key
(documents comparing equal keep their stored order). -/
def sortLe (le : α → α → Bool) : List α → List α
  | [] => []
  | a :: as => insertLe le a (sortLe le as)

/-- Handler `list_conversations` from `main.py` lines 122-135: when the
store handle is `None` the `if db else []` expression yields an empty
iterable (no error); otherwise read conversations sorted by `updated_at`
descending, up to `limit`, and serialize each into a `ConversationOut`.
The handler itself never raises, but its result type matches the other
handlers' for uniformity. -/
def list_conversations (dbAvailable : Bool) (st : DBState) (limit : Nat) :
    Except ChatError (List ConversationOut) :=
  let items :=
    if dbAvailable then
      ((sortLe (fun a b => decide (b.updated_at ≤ a.updated_at))
          st.conversations).take limit)
    else []
  Except.ok (items.map (fun c =>
    ⟨c.oid, c.title, c.user_id, some (isoformat c.created_at),
      some (isoformat c.updated_at)⟩))

/-- Handler `list_messages` from `main.py` lines 138-153: HTTP 500 when the
store handle is `None`; otherwise read this conversation's messages sorted
by `created_at` ascending, up to `limit`, and serialize each into a
`MessageOut`. -/
def list_messages (dbAvailable : Bool) (st : DBState)
    (conversation_id : String) (limit : Nat) :
    Except ChatError (List MessageOut) :=
  if dbAvailable = false then
    Except.error (ChatError.http 500 "Database not available")
  else
    let items :=
      (sortLe (fun a b => decide (a.created_at ≤ b.created_at))
          (st.messages.filter (fun m => m.conversation_id == conversation_id))).take limit
    Except.ok (items.map (fun m =>
      ⟨m.oid, m.conversation_id, m.role, m.content,
        some (isoformat m.created_at)⟩))

/-- Step 1 of the chat handler (`main.py` lines 186-195): when the request
carries no (truthy) conversation id, create a new `Conversation` record
(modelled from the spec: `create_document` in the missing `database.py`
inserts the record with a store-generated `_id` — the nonce — and returns
that id's string form; the record's timestamps default to the current
time).  Otherwise parse the id with `ObjectId(...)` — raising `InvalidId`
on a malformed string — and touch `updated_at` on the matching
conversation. -/
def ensureConversation (st : DBState) (req : ChatRequest) (nonce : StoreNonce)
    (now : Nat) : Except ChatError (String × List ConversationDoc) :=
  if strTruthy req.conversation_id then
    let cid := req.conversation_id.getD ""
    if validObjectId cid then
      Except.ok (cid, touchConversation st.conversations cid now)
    else
      Except.error (ChatError.invalidId cid)
  else
    Except.ok (nonce.convId,
      st.conversations ++ [⟨nonce.convId, none, none, now, now⟩])

/-- Handler `chat` from `main.py` lines 181-239.  `t1` is the `now` of line
188; `t2`, `t3` are the two `utcnow()` calls of lines 214-215; `t4` is the
one of line 220.  Flow: reject when the store handle is `None`; ensure the
conversation exists; insert the user message; generate the reply; insert
the assistant message; parse the conversation id again and touch the
conversation's `updated_at`; read back up to 50 messages ascending and
return them with the reply and conversation id. -/
def chat (dbAvailable : Bool) (st : DBState) (req : ChatRequest)
    (nonce : StoreNonce) (t1 t2 t3 t4 : Nat) :
    Except ChatError (DBState × ChatResponse) :=
  if dbAvailable = false then
    Except.error (ChatError.http 500 "Database not available")
  else
    match ensureConversation st req nonce t1 with
    | Except.error e => Except.error e
    | Except.ok (conversation_id, convs1) =>
      let user_msg : MessageDoc :=
        ⟨nonce.userMsgId, conversation_id, "user", req.message, t1, t1⟩
      let msgs1 := st.messages ++ [user_msg]
      let reply_text := generate_reply req.message
      let bot_msg : MessageDoc :=
        ⟨nonce.botMsgId, conversation_id, "assistant", reply_text, t2, t3⟩
      let msgs2 := msgs1 ++ [bot_msg]
      if validObjectId conversation_id then
        let convs2 := touchConversation convs1 conversation_id t4
        let recent :=
          (sortLe (fun a b => decide (a.created_at ≤ b.created_at))
              (msgs2.filter (fun m => m.conversation_id == conversation_id))).take 50
        Except.ok (⟨convs2, msgs2⟩,
          ⟨conversation_id, reply_text,
            recent.map (fun m =>
              ⟨m.conversation_id, m.role, m.content, some m.created_at⟩)⟩)
      else
        Except.error (ChatError.invalidId conversation_id)

/-- The lower-cased stripped input that `generate_reply` matches keywords
against. -/
def loweredText (s : String) : List Char := pyLower (pyStrip s.data)

example :
    chat true ⟨[], []⟩ ⟨none, "hello"⟩
      ⟨"aaaaaaaaaaaaaaaaaaaaaaaa", "bbbbbbbbbbbbbbbbbbbbbbbb",
        "cccccccccccccccccccccccc"⟩ 1 2 3 4 =
    Except.ok
      (⟨[⟨"aaaaaaaaaaaaaaaaaaaaaaaa", none, none, 1, 4⟩],
        [⟨"bbbbbbbbbbbbbbbbbbbbbbbb", "aaaaaaaaaaaaaaaaaaaaaaaa", "user",
           "hello", 1, 1⟩,
         ⟨"cccccccccccccccccccccccc", "aaaaaaaaaaaaaaaaaaaaaaaa", "assistant",
           genericReply, 2, 3⟩]⟩,
       ⟨"aaaaaaaaaaaaaaaaaaaaaaaa", genericReply,
        [⟨"aaaaaaaaaaaaaaaaaaaaaaaa", "user", "hello", some 1⟩,
         ⟨"aaaaaaaaaaaaaaaaaaaaaaaa", "assistant", genericReply, some 2⟩]⟩) := by
  rfl

/-! ## Theorems: reply generator (claims C3, C4) -/

/-- C4: for every input consisting only of whitespace characters (the
empty string included), `generate_reply` returns the one fixed fallback
message. -/
theorem generate_reply_blank (s : String) (h : s.data.all pyIsSpace = true) :
    generate_reply s = fallbackReply := by
  have hdrop : s.data.dropWhile pyIsSpace = [] :=
    List.dropWhile_eq_nil_iff.mpr (fun x hx => List.all_eq_true.mp h x hx)
  have hstrip : pyStrip s.data = [] := by
    simp [pyStrip, hdrop]
  simp [generate_reply, hstrip]

/-- Witness for C4: `generate_reply("")` and `generate_reply("   ")` both
return the fallback message. -/
theorem generate_reply_blank_witness :
    "".data.all pyIsSpace = true ∧ "   ".data.all pyIsSpace = true ∧
    generate_reply "" = fallbackReply ∧
    generate_reply "   " = fallbackReply :=
  ⟨by decide, by decide, generate_reply_blank "" (by decide),
    generate_reply_blank "   " (by decide)⟩

/-- C3: for every input with non-empty strip, `generate_reply` lower-cases
the stripped input and tests the fixed keyword sets in precedence order
anxiety, sadness, anger, sleep, returning the first matching set's
response, and returns the generic empathy-plus-more-detail prompt when no
keyword of any set occurs. -/
theorem generate_reply_precedence (s : String)
    (h : (pyStrip s.data).isEmpty = false) :
    (containsAny (loweredText s) anxietyWords = true →
      generate_reply s = anxietyReply) ∧
    (containsAny (loweredText s) anxietyWords = false →
      containsAny (loweredText s) sadnessWords = true →
      generate_reply s = sadnessReply) ∧
    (containsAny (loweredText s) anxietyWords = false →
      containsAny (loweredText s) sadnessWords = false →
      containsAny (loweredText s) angerWords = true →
      generate_reply s = angerReply) ∧
    (containsAny (loweredText s) anxietyWords = false →
      containsAny (loweredText s) sadnessWords = false →
      containsAny (loweredText s) angerWords = false →
      containsAny (loweredText s) sleepWords = true →
      generate_reply s = sleepReply) ∧
    (containsAny (loweredText s) anxietyWords = false →
      containsAny (loweredText s) sadnessWords = false →
      containsAny (loweredText s) angerWords = false →
      containsAny (loweredText s) sleepWords = false →
      generate_reply s = genericReply) := by
  refine ⟨?_, ?_, ?_, ?_, ?_⟩ <;> intros <;>
    simp_all [generate_reply, loweredText]

/-- Witness for C3: an input containing both a sadness keyword and an
anxiety keyword gets the anxiety response (first set in precedence
order). -/
theorem generate_reply_precedence_witness :
    (pyStrip "I feel sad and anxious".data).isEmpty = false ∧
    containsAny (loweredText "I feel sad and anxious") anxietyWords = true ∧
    generate_reply "I feel sad and anxious" = anxietyReply :=
  ⟨by decide, by decide,
    (generate_reply_precedence "I feel sad and anxious" (by decide)).1
      (by decide)⟩

/-! ## Theorems: serialization layer (claims C5, C6) -/

/-- Lookup on a cons whose head binds the key. -/
theorem lookupKey_cons_pos (p : String × Value) (d : Doc) (k : String)
    (h : p.1 = k) : lookupKey (p :: d) k = some p.2 := by
  simp [lookupKey, List.find?_cons, h]

/-- Lookup on a cons whose head binds another key. -/
theorem lookupKey_cons_neg (p : String × Value) (d : Doc) (k : String)
    (h : ¬p.1 = k) : lookupKey (p :: d) k = lookupKey d k := by
  simp [lookupKey, List.find?_cons, h]

/-- Converting values commutes with field lookup. -/
theorem lookupKey_map_convert (d : Doc) (k : String) :
    lookupKey (d.map (fun p => (p.1, convertValue p.2))) k =
      (lookupKey d k).map convertValue := by
  induction d with
  | nil => rfl
  | cons p rest ih =>
    by_cases hpk : p.1 = k
    · rw [List.map_cons, lookupKey_cons_pos (p.1, convertValue p.2) _ _ hpk,
        lookupKey_cons_pos p _ _ hpk]
      rfl
    · rw [List.map_cons, lookupKey_cons_neg (p.1, convertValue p.2) _ _ hpk,
        lookupKey_cons_neg p _ _ hpk, ih]

/-- Removing a key removes it. -/
theorem lookupKey_removeKey_self (d : Doc) (k : String) :
    lookupKey (removeKey d k) k = none := by
  induction d with
  | nil => rfl
  | cons p rest ih =>
    by_cases hpk : p.1 = k
    · rw [removeKey, List.filter_cons_of_neg (by simp [hpk])]
      exact ih
    · rw [removeKey, List.filter_cons_of_pos (by simp [hpk])]
      rw [show List.filter (fun q => q.1 != k) rest = removeKey rest k from rfl,
        lookupKey_cons_neg p _ _ hpk]
      exact ih

/-- Removing one key leaves the lookup of any other key unchanged. -/
theorem lookupKey_removeKey_ne (d : Doc) (k kP : String) (h : k ≠ kP) :
    lookupKey (removeKey d kP) k = lookupKey d k := by
  induction d with
  | nil => rfl
  | cons p rest ih =>
    by_cases hpk : p.1 = kP
    · have hk : ¬p.1 = k := fun hc => h (hc ▸ hpk)
      rw [removeKey, List.filter_cons_of_neg (by simp [hpk])]
      rw [show List.filter (fun q => q.1 != kP) rest = removeKey rest kP from rfl,
        ih, lookupKey_cons_neg p _ _ hk]
    · rw [removeKey, List.filter_cons_of_pos (by simp [hpk])]
      rw [show List.filter (fun q => q.1 != kP) rest = removeKey rest kP from rfl]
      by_cases hfk : p.1 = k
      · rw [lookupKey_cons_pos p _ _ hfk, lookupKey_cons_pos p _ _ hfk]
      · rw [lookupKey_cons_neg p _ _ hfk, lookupKey_cons_neg p _ _ hfk, ih]

/-- Setting a key makes its lookup return the new value. -/
theorem lookupKey_setKey_self (d : Doc) (k : String) (v : Value) :
    lookupKey (setKey d k v) k = some v := by
  induction d with
  | nil => exact lookupKey_cons_pos (k, v) _ _ rfl
  | cons p rest ih =>
    by_cases hpk : p.1 = k
    · rw [setKey, if_pos (by simp [hpk])]
      exact lookupKey_cons_pos (k, v) _ _ rfl
    · rw [setKey, if_neg (by simp [hpk]), lookupKey_cons_neg p _ _ hpk]
      exact ih

/-- Setting one key leaves the lookup of any other key unchanged. -/
theorem lookupKey_setKey_ne (d : Doc) (k kP : String) (v : Value)
    (h : k ≠ kP) :
    lookupKey (setKey d kP v) k = lookupKey d k := by
  induction d with
  | nil => exact lookupKey_cons_neg (kP, v) _ _ (fun hc => h hc.symm)
  | cons p rest ih =>
    by_cases hpk : p.1 = kP
    · rw [setKey, if_pos (by simp [hpk]),
        lookupKey_cons_neg (kP, v) _ _ (fun hc => h hc.symm),
        lookupKey_cons_neg p _ _ (show ¬p.1 = k from fun hc => h (hc ▸ hpk))]
    · rw [setKey, if_neg (by simp [hpk])]
      by_cases hfk : p.1 = k
      · rw [lookupKey_cons_pos p _ _ hfk, lookupKey_cons_pos p _ _ hfk]
      · rw [lookupKey_cons_neg p _ _ hfk, lookupKey_cons_neg p _ _ hfk, ih]

/-- A value that is neither identifier-typed (`ObjectId`) nor
timestamp-typed (`datetime`). -/
def Value.isPlain : Value → Bool
  | .objectId _ => false
  | .datetime _ => false
  | _ => true

/-- Plain values are left alone by the conversion loop. -/
theorem convert_plain (v : Value) (h : v.isPlain = true) :
    convertValue v = v := by
  cases v <;> simp_all [Value.isPlain, convertValue]

/-- C5: on a raw stored record (identifier keyed as `_id`, no `id` field),
serialization drops `_id`, surfaces the identifier under `id` as its string
form, and renders every other timestamp-typed field as its ISO string; in
particular a record holding only `_id` serializes to exactly
`{id: "<string form>"}`. -/
theorem serialize_doc_id_rename (doc : Doc) (v : Value)
    (hraw : lookupKey doc "id" = none)
    (hid : lookupKey doc "_id" = some v) :
    lookupKey (serialize_doc doc) "_id" = none ∧
    lookupKey (serialize_doc doc) "id" = some (Value.str (to_str_id v)) ∧
    (∀ k t, k ≠ "_id" → lookupKey doc k = some (Value.datetime t) →
      lookupKey (serialize_doc doc) k = some (Value.str (isoformat t))) ∧
    serialize_doc [("_id", v)] = [("id", Value.str (to_str_id v))] := by
  have hser : serialize_doc doc =
      (setKey (removeKey doc "_id") "id" (Value.str (to_str_id v))).map
        (fun p => (p.1, convertValue p.2)) := by
    simp only [serialize_doc, hid]
  refine ⟨?_, ?_, ?_, ?_⟩
  · rw [hser, lookupKey_map_convert,
      lookupKey_setKey_ne _ _ _ _ (by decide), lookupKey_removeKey_self]
    rfl
  · rw [hser, lookupKey_map_convert, lookupKey_setKey_self]
    rfl
  · intro k t hk hkt
    have hknid : k ≠ "id" := by
      intro hc
      rw [hc, hraw] at hkt
      exact Option.noConfusion hkt
    rw [hser, lookupKey_map_convert, lookupKey_setKey_ne _ _ _ _ hknid,
      lookupKey_removeKey_ne _ _ _ hk, hkt]
    rfl
  · rfl

/-- Witness for C5 at a concrete two-field record. -/
theorem serialize_doc_id_rename_witness :
    lookupKey [("_id", Value.objectId "abc"), ("created_at", Value.datetime 7)]
        "id" = none ∧
    lookupKey (serialize_doc
        [("_id", Value.objectId "abc"), ("created_at", Value.datetime 7)])
        "id" = some (Value.str (to_str_id (Value.objectId "abc"))) :=
  ⟨by decide,
    (serialize_doc_id_rename _ (Value.objectId "abc") (by decide)
        (by decide)).2.1⟩

/-- Counterexample to C6 as stated: the field `ref` is neither the
store-native identifier field (`_id`) nor timestamp-typed, yet
serialization rewrites its `ObjectId` value to a string instead of leaving
it unchanged (the loop converts every `ObjectId`-valued field, not just
`_id`). -/
theorem serialize_doc_objectid_not_preserved :
    lookupKey (serialize_doc [("ref", Value.objectId "abc")]) "ref" =
      some (Value.str "abc") ∧
    some (Value.str "abc") ≠ some (Value.objectId "abc") := by
  decide

/-- C6 amended: on a raw stored record, every field other than `_id` and
`id` whose value is neither identifier-typed nor timestamp-typed is looked
up unchanged after serialization (absent fields stay absent). -/
theorem serialize_doc_frame (doc : Doc) (k : String)
    (hk1 : k ≠ "_id") (hk2 : k ≠ "id")
    (hplain : ∀ v, lookupKey doc k = some v → v.isPlain = true) :
    lookupKey (serialize_doc doc) k = lookupKey doc k := by
  cases hid : lookupKey doc "_id" with
  | none =>
    have hser : serialize_doc doc =
        doc.map (fun p => (p.1, convertValue p.2)) := by
      simp only [serialize_doc, hid]
    rw [hser, lookupKey_map_convert]
    cases hkv : lookupKey doc k with
    | none => rfl
    | some v => simp [convert_plain v (hplain v hkv)]
  | some v0 =>
    have hser : serialize_doc doc =
        (setKey (removeKey doc "_id") "id" (Value.str (to_str_id v0))).map
          (fun p => (p.1, convertValue p.2)) := by
      simp only [serialize_doc, hid]
    rw [hser, lookupKey_map_convert, lookupKey_setKey_ne _ _ _ _ hk2,
      lookupKey_removeKey_ne _ _ _ hk1]
    cases hkv : lookupKey doc k with
    | none => rfl
    | some v => simp [convert_plain v (hplain v hkv)]

/-- Witness for the amended C6 at a concrete record. -/
theorem serialize_doc_frame_witness :
    lookupKey (serialize_doc
        [("_id", Value.objectId "abc"), ("content", Value.str "hi")])
        "content" =
      lookupKey [("_id", Value.objectId "abc"), ("content", Value.str "hi")]
        "content" :=
  serialize_doc_frame _ "content" (by decide) (by decide)
    (fun v hv => by
      have h0 : lookupKey
          [("_id", Value.objectId "abc"), ("content", Value.str "hi")]
          "content" = some (Value.str "hi") := by decide
      rw [h0] at hv
      injection hv with h1
      rw [← h1]
      rfl)

/-! ## Theorems: chat and listing handlers (claims C1, C2, C7, C9, C10) -/

/-- Mongo `update_one` with a filter matching no stored conversation is a
no-op. -/
theorem touch_not_mem (l : List ConversationDoc) (cid : String) (t : Nat)
    (h : ∀ c ∈ l, c.oid ≠ cid) : touchConversation l cid t = l := by
  induction l with
  | nil => rfl
  | cons c rest ih =>
    have hc : (c.oid == cid) = false := by
      simp
      exact h c (List.mem_cons_self c rest)
    simp [touchConversation, hc,
      ih (fun x hx => h x (List.mem_cons_of_mem c hx))]

/-- Touching a freshly appended conversation (its id absent from the rest
of the collection) updates exactly that record. -/
theorem touch_append_fresh (l : List ConversationDoc) (c : ConversationDoc)
    (t : Nat) (h : ∀ x ∈ l, x.oid ≠ c.oid) :
    touchConversation (l ++ [c]) c.oid t =
      l ++ [{ c with updated_at := t }] := by
  induction l with
  | nil => simp [touchConversation]
  | cons x rest ih =>
    have hx : (x.oid == c.oid) = false := by
      simp
      exact h x (List.mem_cons_self x rest)
    simp [touchConversation, hx,
      ih (fun y hy => h y (List.mem_cons_of_mem x hy))]

/-- Touching never changes the ids present in the collection. -/
theorem touch_map_oid (l : List ConversationDoc) (cid : String) (t : Nat) :
    (touchConversation l cid t).map ConversationDoc.oid =
      l.map ConversationDoc.oid := by
  induction l with
  | nil => rfl
  | cons c rest ih =>
    cases hc : c.oid == cid <;> simp [touchConversation, hc, ih]

/-- Touching rewrites the first matching conversation's `updated_at` and
is invisible to the lookup of that conversation otherwise. -/
theorem touch_find (l : List ConversationDoc) (cid : String) (t : Nat) :
    (touchConversation l cid t).find? (fun c => c.oid == cid) =
      (l.find? (fun c => c.oid == cid)).map
        (fun c => { c with updated_at := t }) := by
  induction l with
  | nil => rfl
  | cons c rest ih =>
    cases hc : c.oid == cid <;>
      simp [touchConversation, hc, List.find?_cons, ih]

/-- C1: a chat call with no `conversation_id` creates exactly one new
conversation (the store-generated id, fresh by store uniqueness), inserts
exactly the user message then the assistant message, and answers with the
new conversation's id. -/
theorem chat_new_conversation (st : DBState) (req : ChatRequest)
    (nonce : StoreNonce) (t1 t2 t3 t4 : Nat)
    (hreq : req.conversation_id = none)
    (hvalid : validObjectId nonce.convId = true)
    (hfresh : ∀ c ∈ st.conversations, c.oid ≠ nonce.convId) :
    ∃ stP resp,
      chat true st req nonce t1 t2 t3 t4 = Except.ok (stP, resp) ∧
      stP.conversations =
        st.conversations ++ [⟨nonce.convId, none, none, t1, t4⟩] ∧
      stP.messages = st.messages ++
        [⟨nonce.userMsgId, nonce.convId, "user", req.message, t1, t1⟩,
         ⟨nonce.botMsgId, nonce.convId, "assistant",
            generate_reply req.message, t2, t3⟩] ∧
      resp.conversation_id = nonce.convId := by
  have hens : ensureConversation st req nonce t1 =
      Except.ok (nonce.convId,
        st.conversations ++ [⟨nonce.convId, none, none, t1, t1⟩]) := by
    simp [ensureConversation, hreq, strTruthy]
  simp only [chat, hens, hvalid, if_true, Bool.true_eq_false, if_false]
  refine ⟨_, _, rfl, ?_, ?_, rfl⟩
  · have happ := touch_append_fresh st.conversations
      ⟨nonce.convId, none, none, t1, t1⟩ t4 hfresh
    simpa using happ
  · simp

/-- Witness for C1 on the empty store. -/
theorem chat_new_conversation_witness :
    ∃ stP resp,
      chat true ⟨[], []⟩ ⟨none, "hi"⟩
        ⟨"aaaaaaaaaaaaaaaaaaaaaaaa", "bbbbbbbbbbbbbbbbbbbbbbbb",
          "cccccccccccccccccccccccc"⟩ 1 2 3 4 = Except.ok (stP, resp) ∧
      stP.conversations = [] ++ [⟨"aaaaaaaaaaaaaaaaaaaaaaaa", none, none, 1, 4⟩] ∧
      stP.messages = [] ++
        [⟨"bbbbbbbbbbbbbbbbbbbbbbbb", "aaaaaaaaaaaaaaaaaaaaaaaa", "user",
           "hi", 1, 1⟩,
         ⟨"cccccccccccccccccccccccc", "aaaaaaaaaaaaaaaaaaaaaaaa", "assistant",
            generate_reply "hi", 2, 3⟩] ∧
      resp.conversation_id = "aaaaaaaaaaaaaaaaaaaaaaaa" :=
  chat_new_conversation ⟨[], []⟩ ⟨none, "hi"⟩
    ⟨"aaaaaaaaaaaaaaaaaaaaaaaa", "bbbbbbbbbbbbbbbbbbbbbbbb",
      "cccccccccccccccccccccccc"⟩ 1 2 3 4 rfl (by decide) (by decide)

/-- A non-empty supplied conversation id is truthy. -/
theorem strTruthy_some (cid : String) (hne : cid ≠ "") :
    strTruthy (some cid) = true := by
  have h0 : cid.isEmpty = false :=
    Bool.eq_false_iff.mpr (fun hg => hne ((String.isEmpty_iff cid).mp hg))
  simp [strTruthy, h0]

/-- C2: a chat call with an existing (non-empty, well-formed, stored)
`conversation_id` creates no conversation — the set of stored ids is
unchanged — appends exactly the user message then the assistant message to
that conversation, leaves the conversation's `updated_at` at the final
clock reading `t4` (strictly later than the stored value, which predates
the call), and answers with the same id. -/
theorem chat_existing_conversation (st : DBState) (req : ChatRequest)
    (nonce : StoreNonce) (t1 t2 t3 t4 : Nat) (cid : String)
    (c : ConversationDoc)
    (hreq : req.conversation_id = some cid)
    (hne : cid ≠ "")
    (hvalid : validObjectId cid = true)
    (hfind : st.conversations.find? (fun d => d.oid == cid) = some c)
    (hlt : c.updated_at < t4) :
    ∃ stP resp,
      chat true st req nonce t1 t2 t3 t4 = Except.ok (stP, resp) ∧
      stP.conversations.map ConversationDoc.oid =
        st.conversations.map ConversationDoc.oid ∧
      stP.messages = st.messages ++
        [⟨nonce.userMsgId, cid, "user", req.message, t1, t1⟩,
         ⟨nonce.botMsgId, cid, "assistant",
            generate_reply req.message, t2, t3⟩] ∧
      stP.conversations.find? (fun d => d.oid == cid) =
        some { c with updated_at := t4 } ∧
      c.updated_at < ({ c with updated_at := t4 }).updated_at ∧
      resp.conversation_id = cid := by
  have htr : strTruthy (some cid) = true := strTruthy_some cid hne
  have hens : ensureConversation st req nonce t1 =
      Except.ok (cid, touchConversation st.conversations cid t1) := by
    simp [ensureConversation, hreq, htr, hvalid]
  simp only [chat, hens, hvalid, if_true, Bool.true_eq_false, if_false]
  refine ⟨_, _, rfl, ?_, ?_, ?_, hlt, rfl⟩
  · rw [touch_map_oid, touch_map_oid]
  · simp
  · rw [touch_find, touch_find, hfind]
    rfl

/-- Witness for C2 on a one-conversation store. -/
theorem chat_existing_conversation_witness :
    ∃ stP resp,
      chat true ⟨[⟨"aaaaaaaaaaaaaaaaaaaaaaaa", none, none, 0, 0⟩], []⟩
        ⟨some "aaaaaaaaaaaaaaaaaaaaaaaa", "hi"⟩
        ⟨"dddddddddddddddddddddddd", "bbbbbbbbbbbbbbbbbbbbbbbb",
          "cccccccccccccccccccccccc"⟩ 1 2 3 4 = Except.ok (stP, resp) ∧
      stP.conversations.map ConversationDoc.oid =
        [⟨"aaaaaaaaaaaaaaaaaaaaaaaa", none, none, 0, 0⟩].map
          ConversationDoc.oid ∧
      stP.messages = [] ++
        [⟨"bbbbbbbbbbbbbbbbbbbbbbbb", "aaaaaaaaaaaaaaaaaaaaaaaa", "user",
           "hi", 1, 1⟩,
         ⟨"cccccccccccccccccccccccc", "aaaaaaaaaaaaaaaaaaaaaaaa", "assistant",
            generate_reply "hi", 2, 3⟩] ∧
      stP.conversations.find?
          (fun d => d.oid == "aaaaaaaaaaaaaaaaaaaaaaaa") =
        some { (⟨"aaaaaaaaaaaaaaaaaaaaaaaa", none, none, 0, 0⟩ :
            ConversationDoc) with updated_at := 4 } ∧
      (⟨"aaaaaaaaaaaaaaaaaaaaaaaa", none, none, 0, 0⟩ :
          ConversationDoc).updated_at <
        ({ (⟨"aaaaaaaaaaaaaaaaaaaaaaaa", none, none, 0, 0⟩ :
            ConversationDoc) with updated_at := 4 }).updated_at ∧
      resp.conversation_id = "aaaaaaaaaaaaaaaaaaaaaaaa" :=
  chat_existing_conversation
    ⟨[⟨"aaaaaaaaaaaaaaaaaaaaaaaa", none, none, 0, 0⟩], []⟩
    ⟨some "aaaaaaaaaaaaaaaaaaaaaaaa", "hi"⟩
    ⟨"dddddddddddddddddddddddd", "bbbbbbbbbbbbbbbbbbbbbbbb",
      "cccccccccccccccccccccccc"⟩ 1 2 3 4 "aaaaaaaaaaaaaaaaaaaaaaaa"
    ⟨"aaaaaaaaaaaaaaaaaaaaaaaa", none, none, 0, 0⟩
    rfl (by decide) (by decide) (by decide) (by decide)

/-- C9: a chat call whose supplied conversation id is malformed (not a
24-hex-character `ObjectId` string) fails with the uncaught `InvalidId`
exception from `ObjectId(...)`, which is not the handled HTTP 500
store-unavailable error. -/
theorem chat_malformed_id (st : DBState) (req : ChatRequest)
    (nonce : StoreNonce) (t1 t2 t3 t4 : Nat) (cid : String)
    (hreq : req.conversation_id = some cid)
    (hne : cid ≠ "")
    (hbad : validObjectId cid = false) :
    chat true st req nonce t1 t2 t3 t4 =
      Except.error (ChatError.invalidId cid) ∧
    ChatError.invalidId cid ≠
      ChatError.http 500 "Database not available" := by
  have htr : strTruthy (some cid) = true := strTruthy_some cid hne
  have hens : ensureConversation st req nonce t1 =
      Except.error (ChatError.invalidId cid) := by
    simp [ensureConversation, hreq, htr, hbad]
  constructor
  · simp [chat, hens]
  · intro h
    exact ChatError.noConfusion h

/-- Witness for C9 with a malformed id. -/
theorem chat_malformed_id_witness :
    chat true ⟨[], []⟩ ⟨some "not-an-objectid", "hi"⟩
      ⟨"aaaaaaaaaaaaaaaaaaaaaaaa", "bbbbbbbbbbbbbbbbbbbbbbbb",
        "cccccccccccccccccccccccc"⟩ 1 2 3 4 =
      Except.error (ChatError.invalidId "not-an-objectid") ∧
    ChatError.invalidId "not-an-objectid" ≠
      ChatError.http 500 "Database not available" :=
  chat_malformed_id ⟨[], []⟩ ⟨some "not-an-objectid", "hi"⟩
    ⟨"aaaaaaaaaaaaaaaaaaaaaaaa", "bbbbbbbbbbbbbbbbbbbbbbbb",
      "cccccccccccccccccccccccc"⟩ 1 2 3 4 "not-an-objectid"
    rfl (by decide) (by decide)

/-- C10: a chat call with a well-formed conversation id that matches no
stored conversation succeeds: it creates no conversation, its touches of
`updated_at` match zero records (the collection is unchanged), it still
appends the user and assistant messages carrying that id, and it answers
with that id. -/
theorem chat_unknown_conversation (st : DBState) (req : ChatRequest)
    (nonce : StoreNonce) (t1 t2 t3 t4 : Nat) (cid : String)
    (hreq : req.conversation_id = some cid)
    (hne : cid ≠ "")
    (hvalid : validObjectId cid = true)
    (habs : ∀ c ∈ st.conversations, c.oid ≠ cid) :
    ∃ stP resp,
      chat true st req nonce t1 t2 t3 t4 = Except.ok (stP, resp) ∧
      stP.conversations = st.conversations ∧
      stP.messages = st.messages ++
        [⟨nonce.userMsgId, cid, "user", req.message, t1, t1⟩,
         ⟨nonce.botMsgId, cid, "assistant",
            generate_reply req.message, t2, t3⟩] ∧
      resp.conversation_id = cid := by
  have htr : strTruthy (some cid) = true := strTruthy_some cid hne
  have hens : ensureConversation st req nonce t1 =
      Except.ok (cid, st.conversations) := by
    simp [ensureConversation, hreq, htr, hvalid,
      touch_not_mem st.conversations cid t1 habs]
  simp only [chat, hens, hvalid, if_true, Bool.true_eq_false, if_false]
  refine ⟨_, _, rfl, ?_, ?_, rfl⟩
  · exact touch_not_mem st.conversations cid t4 habs
  · simp

/-- Witness for C10: a fabricated well-formed id on an empty store. -/
theorem chat_unknown_conversation_witness :
    ∃ stP resp,
      chat true ⟨[], []⟩ ⟨some "ffffffffffffffffffffffff", "hi"⟩
        ⟨"aaaaaaaaaaaaaaaaaaaaaaaa", "bbbbbbbbbbbbbbbbbbbbbbbb",
          "cccccccccccccccccccccccc"⟩ 1 2 3 4 = Except.ok (stP, resp) ∧
      stP.conversations = [] ∧
      stP.messages = [] ++
        [⟨"bbbbbbbbbbbbbbbbbbbbbbbb", "ffffffffffffffffffffffff", "user",
           "hi", 1, 1⟩,
         ⟨"cccccccccccccccccccccccc", "ffffffffffffffffffffffff", "assistant",
            generate_reply "hi", 2, 3⟩] ∧
      resp.conversation_id = "ffffffffffffffffffffffff" :=
  chat_unknown_conversation ⟨[], []⟩
    ⟨some "ffffffffffffffffffffffff", "hi"⟩
    ⟨"aaaaaaaaaaaaaaaaaaaaaaaa", "bbbbbbbbbbbbbbbbbbbbbbbb",
      "cccccccccccccccccccccccc"⟩ 1 2 3 4 "ffffffffffffffffffffffff"
    rfl (by decide) (by decide) (by decide)

/-- Counterexample to C7 as stated: `list_conversations` touches the store
yet does not fail with HTTP 500 when the store handle is `None` — the
`if db else []` on `main.py` line 124 silently yields an empty listing. -/
theorem list_conversations_no_error_when_unavailable :
    list_conversations false ⟨[], []⟩ 20 = Except.ok [] ∧
    list_conversations false ⟨[], []⟩ 20 ≠
      Except.error (ChatError.http 500 "Database not available") := by
  refine ⟨rfl, fun h => ?_⟩
  exact Except.noConfusion h

/-- C7 amended: with the store unavailable, `list_messages` and `chat`
each fail fast with HTTP 500 "Database not available" (no retry), while
`list_conversations` instead returns an empty list without error. -/
theorem handlers_store_unavailable (st : DBState) (cid : String)
    (lim : Nat) (req : ChatRequest) (nonce : StoreNonce)
    (t1 t2 t3 t4 : Nat) :
    list_messages false st cid lim =
      Except.error (ChatError.http 500 "Database not available") ∧
    chat false st req nonce t1 t2 t3 t4 =
      Except.error (ChatError.http 500 "Database not available") ∧
    list_conversations false st lim = Except.ok [] :=
  ⟨rfl, rfl, rfl⟩

/-! ## Theorems: referential-integrity invariant (claim C8) -/

/-- The spec's data-model invariant: every stored message's
`conversation_id` references a stored conversation. -/
def fkInvariant (st : DBState) : Prop :=
  ∀ m ∈ st.messages, ∃ c ∈ st.conversations, c.oid = m.conversation_id

/-- The chat result preserves the invariant whenever the call succeeds. -/
def chatPreservesFk (res : Except ChatError (DBState × ChatResponse)) : Prop :=
  ∀ stP resp, res = Except.ok (stP, resp) → fkInvariant stP

/-- An id occurs among the conversations after a touch exactly when it
occurred before. -/
theorem exists_oid_touch (l : List ConversationDoc) (cid : String) (t : Nat)
    (x : String) :
    (∃ c ∈ touchConversation l cid t, c.oid = x) ↔ ∃ c ∈ l, c.oid = x := by
  constructor
  · rintro ⟨c, hc, hx⟩
    have : x ∈ (touchConversation l cid t).map ConversationDoc.oid :=
      List.mem_map.mpr ⟨c, hc, hx⟩
    rw [touch_map_oid] at this
    exact List.mem_map.mp this
  · rintro ⟨c, hc, hx⟩
    have : x ∈ l.map ConversationDoc.oid := List.mem_map.mpr ⟨c, hc, hx⟩
    rw [← touch_map_oid l cid t] at this
    exact List.mem_map.mp this

/-- Counterexample to C8 as stated: a chat call supplying a well-formed
conversation id that exists nowhere in the store still inserts both
messages, so afterwards the store holds messages whose `conversation_id`
references no conversation at all (the conversation collection stays
empty). -/
theorem chat_breaks_fk_on_unknown_id :
    chat true ⟨[], []⟩ ⟨some "ffffffffffffffffffffffff", "hi"⟩
      ⟨"aaaaaaaaaaaaaaaaaaaaaaaa", "bbbbbbbbbbbbbbbbbbbbbbbb",
        "cccccccccccccccccccccccc"⟩ 1 2 3 4 =
      Except.ok
        (⟨[],
          [⟨"bbbbbbbbbbbbbbbbbbbbbbbb", "ffffffffffffffffffffffff", "user",
             "hi", 1, 1⟩,
           ⟨"cccccccccccccccccccccccc", "ffffffffffffffffffffffff",
             "assistant", generate_reply "hi", 2, 3⟩]⟩,
         ⟨"ffffffffffffffffffffffff", generate_reply "hi",
          [⟨"ffffffffffffffffffffffff", "user", "hi", some 1⟩,
           ⟨"ffffffffffffffffffffffff", "assistant", generate_reply "hi",
             some 2⟩]⟩) ∧
    ¬fkInvariant
      ⟨[],
       [⟨"bbbbbbbbbbbbbbbbbbbbbbbb", "ffffffffffffffffffffffff", "user",
          "hi", 1, 1⟩,
        ⟨"cccccccccccccccccccccccc", "ffffffffffffffffffffffff", "assistant",
          generate_reply "hi", 2, 3⟩]⟩ := by
  refine ⟨rfl, fun hinv => ?_⟩
  rcases hinv ⟨"bbbbbbbbbbbbbbbbbbbbbbbb", "ffffffffffffffffffffffff",
      "user", "hi", 1, 1⟩ (by simp) with ⟨c, hc, -⟩
  exact absurd hc (List.not_mem_nil c)

/-- C8 amended: a successful chat call preserves the referential
invariant provided any supplied (truthy) conversation id references a
stored conversation; both inserted messages then reference an existing
conversation (the supplied one, or the newly created one). -/
theorem chat_preserves_fk (st : DBState) (req : ChatRequest) (nonce : StoreNonce) (t1 t2 t3 t4 : Nat)
    (hinv : fkInvariant st)
    (hid : strTruthy req.conversation_id = true →
      ∃ c ∈ st.conversations, c.oid = req.conversation_id.getD "") :
    chatPreservesFk (chat true st req nonce t1 t2 t3 t4) := by
  intro stP resp h
  cases htr : strTruthy req.conversation_id with
  | true =>
    cases hv : validObjectId (req.conversation_id.getD "") with
    | false =>
      rw [chat] at h
      simp [ensureConversation, htr, hv] at h
    | true =>
      have hens : ensureConversation st req nonce t1 =
          Except.ok (req.conversation_id.getD "",
            touchConversation st.conversations
              (req.conversation_id.getD "") t1) := by
        simp [ensureConversation, htr, hv]
      rw [chat] at h
      simp only [hens, hv, if_true, Bool.true_eq_false, if_false] at h
      injection h with h1
      injection h1 with hst hresp
      subst hst
      intro m hm
      have hm2 : m ∈ st.messages ++
          [(⟨nonce.userMsgId, req.conversation_id.getD "", "user",
             req.message, t1, t1⟩ : MessageDoc)] ++
          [(⟨nonce.botMsgId, req.conversation_id.getD "", "assistant",
             generate_reply req.message, t2, t3⟩ : MessageDoc)] := hm
      show ∃ c ∈ touchConversation
          (touchConversation st.conversations (req.conversation_id.getD "") t1)
          (req.conversation_id.getD "") t4, c.oid = m.conversation_id
      rw [exists_oid_touch, exists_oid_touch]
      rcases List.mem_append.mp hm2 with hm0 | hm12
      · rcases List.mem_append.mp hm0 with hm0 | hm1
        · exact hinv m hm0
        · rcases List.mem_singleton.mp hm1 with rfl
          exact hid htr
      · rcases List.mem_singleton.mp hm12 with rfl
        exact hid htr
  | false =>
    cases hv : validObjectId nonce.convId with
    | false =>
      rw [chat] at h
      simp [ensureConversation, htr, hv] at h
    | true =>
      have hens : ensureConversation st req nonce t1 =
          Except.ok (nonce.convId, st.conversations ++
            [⟨nonce.convId, none, none, t1, t1⟩]) := by
        simp [ensureConversation, htr]
      rw [chat] at h
      simp only [hens, hv, if_true, Bool.true_eq_false, if_false] at h
      injection h with h1
      injection h1 with hst hresp
      subst hst
      intro m hm
      have hm2 : m ∈ st.messages ++
          [(⟨nonce.userMsgId, nonce.convId, "user",
             req.message, t1, t1⟩ : MessageDoc)] ++
          [(⟨nonce.botMsgId, nonce.convId, "assistant",
             generate_reply req.message, t2, t3⟩ : MessageDoc)] := hm
      show ∃ c ∈ touchConversation
          (st.conversations ++ [⟨nonce.convId, none, none, t1, t1⟩])
          nonce.convId t4, c.oid = m.conversation_id
      rw [exists_oid_touch]
      have hnew : ∃ c ∈ st.conversations ++
          [(⟨nonce.convId, none, none, t1, t1⟩ : ConversationDoc)],
          c.oid = nonce.convId :=
        ⟨⟨nonce.convId, none, none, t1, t1⟩, by simp, rfl⟩
      rcases List.mem_append.mp hm2 with hm0 | hm12
      · rcases List.mem_append.mp hm0 with hm0 | hm1
        · rcases hinv m hm0 with ⟨c, hc, hx⟩
          exact ⟨c, List.mem_append_left _ hc, hx⟩
        · rcases List.mem_singleton.mp hm1 with rfl
          exact hnew
      · rcases List.mem_singleton.mp hm12 with rfl
        exact hnew

/-- Witness for the amended C8: a store satisfying the invariant, chatted
at with an id it contains. -/
theorem chat_preserves_fk_witness :
    chatPreservesFk (chat true
      ⟨[⟨"aaaaaaaaaaaaaaaaaaaaaaaa", none, none, 0, 0⟩], []⟩
      ⟨some "aaaaaaaaaaaaaaaaaaaaaaaa", "hi"⟩
      ⟨"dddddddddddddddddddddddd", "bbbbbbbbbbbbbbbbbbbbbbbb",
        "cccccccccccccccccccccccc"⟩ 1 2 3 4) :=
  chat_preserves_fk
    ⟨[⟨"aaaaaaaaaaaaaaaaaaaaaaaa", none, none, 0, 0⟩], []⟩
    ⟨some "aaaaaaaaaaaaaaaaaaaaaaaa", "hi"⟩
    ⟨"dddddddddddddddddddddddd", "bbbbbbbbbbbbbbbbbbbbbbbb",
      "cccccccccccccccccccccccc"⟩ 1 2 3 4
    (fun m hm => absurd hm (List.not_mem_nil m))
    (fun _ => ⟨⟨"aaaaaaaaaaaaaaaaaaaaaaaa", none, none, 0, 0⟩,
      List.mem_singleton.mpr rfl, rfl⟩)
